import Mathlib

/-!
Verification of the music-scraping pipeline (src/main.py).

The file gives a shallow embedding of the pure decision logic of the
script: the duplicate filter, the classifier retry policy, the wait-time
parsing, the playlist resolution and the per-track reconciliation loop.
Remote services (the Spotify catalog, the playlist endpoint, the text
generation model) are modelled as explicit per-call outcomes, so that the
control flow of the Python code becomes a total function of those
outcomes.
-/

set_option autoImplicit false

namespace MusicScraping

/-! ### String machinery shared by several components

Python string primitives used by the script, embedded at the level of
character lists.
-/

/-- leadsWith needle hay decides whether needle is an initial segment of
hay, character by character. -/
def leadsWith : List Char → List Char → Bool
  | [], _ => true
  | _ :: _, [] => false
  | a :: as, b :: bs => a == b && leadsWith as bs

/-- containsTok sep s decides whether sep occurs as a contiguous block
inside s; for a nonempty sep this is the Python membership test sep in s. -/
def containsTok (sep : List Char) : List Char → Bool
  | [] => false
  | c :: t => leadsWith sep (c :: t) || containsTok sep t

/-- strIn needle hay is the Python test needle in hay on strings. -/
def strIn (needle hay : String) : Bool :=
  containsTok needle.data hay.data

/-! ### Data model -/

/-- ClassifiedTrack is the per-title record built by App.get_new_tracks:
the three classifier fields plus original_title, channel and the run
timestamp (the field named date here stands for the key written by the
script for the processing date). -/
structure ClassifiedTrack where
  artist : String
  track : String
  title : String
  original_title : String
  channel : String
  date : String
deriving Repr, DecidableEq

/-- DbRecord is a record of the persisted record store (the database
list), restricted to the one field App.identify inspects: the
original_title key, absent in some historical records, hence an Option. -/
structure DbRecord where
  original_title : Option String
deriving Repr, DecidableEq

/-! ### Duplicate Filter (App.identify, lines 120-124, and the filtering
comprehension of App.parse, line 133) -/

/-- identify database title is the loop of App.identify: it scans the
record store and reports whether some record carries an original_title
key equal to the given title. -/
def identify (database : List DbRecord) (title : String) : Bool :=
  database.any (fun d =>
    match d.original_title with
    | some t => title == t
    | none => false)

/-- parse_filter is the list comprehension closing App.parse: it keeps,
in order, exactly the extracted titles that identify does not recognize. -/
def parse_filter (titles : List String) (database : List DbRecord) : List String :=
  titles.filter (fun t => !identify database t)

/-! ### Playlist resolution (App.get_playlist_id, lines 306-317) -/

/-- Playlist is one item of the remote playlist listing, restricted to
the two fields the code reads. -/
structure Playlist where
  name : String
  id : String
deriving Repr, DecidableEq

/-- PlaylistResolution records how App.get_playlist_id ended: the Python
function returns an existing id, the id of a playlist it just created
(capturing the creation parameters it sent), or falls off the loop and
returns None. -/
inductive PlaylistResolution where
  | noneEstablished : PlaylistResolution
  | reused (id : String) : PlaylistResolution
  | created (name description : String) (pub : Bool) (id : String) : PlaylistResolution
deriving Repr, DecidableEq

/-- get_playlist_id models App.get_playlist_id: the for loop returns on
its first iteration, reusing the first listed playlist when its name
contains the target string and otherwise creating a new playlist; an
empty listing falls through to the implicit None. createdId stands for
the id the remote service would assign to the created playlist. -/
def get_playlist_id (items : List Playlist) (createdId : String) : PlaylistResolution :=
  match items with
  | [] => .noneEstablished
  | p :: _ =>
      if strIn "Youtube Scrapping" p.name then .reused p.id
      else .created "Youtube Scrapping" "Musicas que foram retiradas do Youtube" true createdId

/-! ### Wait-time parsing (App.get_wait_time, lines 184-191)

The Python code is
  seconds = str(error).split('Please try again in ')[-1].split('s', 1)[0]
  seconds = float(seconds.replace('.', '').replace('m', '.'))
  return int(seconds * 60)
with a fallback of 120 when anything above raises.
-/

/-- sepChars is the separator string of the split call. -/
def sepChars : List Char := "Please try again in ".data

/-- afterLast sep s returns the characters after the final occurrence of
sep in s, or none when sep never occurs. The scan prefers the rightmost
occurrence; since the concrete separator used by the script has no
nontrivial border, occurrences cannot overlap and this agrees with the
last field of the Python split. -/
def afterLast (sep : List Char) : List Char → Option (List Char)
  | [] => none
  | c :: t =>
      match afterLast sep t with
      | some r => some r
      | none =>
          if leadsWith sep (c :: t) then some (List.drop (sep.length - 1) t)
          else none

/-- splitLastField sep s is the Python expression s.split(sep)[-1]: the
text after the final occurrence of sep, or all of s when sep is absent. -/
def splitLastField (sep s : List Char) : List Char :=
  match afterLast sep s with
  | some r => r
  | none => s

/-- takeUntilChar c s is the Python expression s.split(c, 1)[0]: the
characters strictly before the first occurrence of c, or all of s. -/
def takeUntilChar (x : Char) : List Char → List Char
  | [] => []
  | c :: t => if c = x then [] else c :: takeUntilChar x t

/-- removeChar x s is the Python replace of the one-character string x by
the empty string: every occurrence of x is deleted. -/
def removeChar (x : Char) (s : List Char) : List Char :=
  s.filter (fun c => c != x)

/-- replaceChar x y s is the Python replace of the one-character string x
by the one-character string y. -/
def replaceChar (x y : Char) (s : List Char) : List Char :=
  s.map (fun c => if c = x then y else c)

/-- digitsVal reads a decimal digit string, most significant digit
first. -/
def digitsVal (ds : List Char) : Nat :=
  ds.foldl (fun a c => 10 * a + (c.toNat - 48)) 0

/-- parseUnsigned models the Python float() conversion on an unsigned
plain decimal literal: digits, optionally split by a single dot, with at
least one digit in total and no other characters. Exotic float() forms
(exponents, infinities, whitespace) never reach this code path in the
claims under study and are treated as failures. -/
def parseUnsigned (s : List Char) : Option ℚ :=
  let d1 := s.takeWhile Char.isDigit
  let r1 := s.dropWhile Char.isDigit
  match r1 with
  | [] => if d1.isEmpty then none else some (digitsVal d1 : ℚ)
  | c :: r2 =>
      if c = '.' then
        let d2 := r2.takeWhile Char.isDigit
        let r3 := r2.dropWhile Char.isDigit
        if r3.isEmpty && !(d1.isEmpty && d2.isEmpty) then
          some ((digitsVal d1 : ℚ) + (digitsVal d2 : ℚ) / (10 : ℚ) ^ d2.length)
        else none
      else none

/-- parseFloat models the Python float() conversion on an optionally
signed plain decimal literal. -/
def parseFloat (s : List Char) : Option ℚ :=
  match s with
  | [] => none
  | c :: t =>
      if c = '-' then (parseUnsigned t).map (fun q => -q)
      else if c = '+' then parseUnsigned t
      else parseUnsigned s

/-- pyInt models the Python int() conversion of an exact rational value:
truncation toward zero. -/
def pyInt (q : ℚ) : Int :=
  Int.tdiv q.num (q.den : Int)

/-- get_wait_time models App.get_wait_time: isolate the text between the
final rate-limit marker and the next letter s, delete dots, turn the
letter m into a dot, convert with float and scale by 60; any conversion
failure yields the fixed fallback of 120. -/
def get_wait_time (error : String) : Int :=
  let s1 := splitLastField sepChars error.data
  let s2 := takeUntilChar 's' s1
  let s3 := replaceChar 'm' '.' (removeChar '.' s2)
  match parseFloat s3 with
  | some seconds => pyInt (seconds * 60)
  | none => 120

/-! ### Title Classifier (App.ask, lines 194-214)

The external model is an oracle giving the outcome of the n-th invoke
call made for one title (numbering from 0). The tenacity decorator on
the inner attempt retries every exception, stops after 3 attempts and
re-raises the last exception.
-/

/-- MusicDetails is the three-field record the JSON parser extracts. -/
structure MusicDetails where
  artist : String
  track : String
  title : String
deriving Repr, DecidableEq

/-- InvokeResult is the outcome of one invoke call on the chat chain: a
parsed record, an OutputParserException carrying its message, or any
other exception carrying its message. -/
inductive InvokeResult where
  | ok (r : MusicDetails) : InvokeResult
  | parseFailure (msg : String) : InvokeResult
  | failure (msg : String) : InvokeResult
deriving Repr, DecidableEq

/-- default_response is the literal default dictionary of App.ask. -/
def default_response : MusicDetails :=
  { artist := "Unknown", track := "Unknown", title := "Unknown" }

/-- stop_attempts is the stop_after_attempt argument of the tenacity
decorator. -/
def stop_attempts : Nat := 3

/-- retryAttempts models the decorated inner attempt: the tenacity
policy retries every exception (including the parser exception), stops
after three attempts and, with reraise, re-raises the third outcome.
The returned number counts the invoke calls issued. -/
def retryAttempts (oracle : Nat → InvokeResult) : InvokeResult × Nat :=
  match oracle 0 with
  | .ok r => (.ok r, 1)
  | _ =>
      match oracle 1 with
      | .ok r => (.ok r, 2)
      | _ => (oracle 2, 3)

/-- AskResult packages what one App.ask call did: the dictionary it
returned, how many invoke calls it issued, and how long it slept before
the extra attempt of the rate-limit path (0 when that path was not
taken). -/
structure AskResult where
  response : MusicDetails
  attempts : Nat
  sleptSeconds : Int
deriving Repr, DecidableEq

/-- ask models App.ask: run the retried attempt; on success return its
record; if the re-raised exception is the parser exception, return the
default record; on any other exception, sleep for the parsed wait time
and issue exactly one further invoke call, returning its record on
success and the default record otherwise. -/
def ask (oracle : Nat → InvokeResult) : AskResult :=
  match retryAttempts oracle with
  | (.ok r, n) => { response := r, attempts := n, sleptSeconds := 0 }
  | (.parseFailure _, n) => { response := default_response, attempts := n, sleptSeconds := 0 }
  | (.failure msg, n) =>
      match oracle 3 with
      | .ok r => { response := r, attempts := n + 1, sleptSeconds := get_wait_time msg }
      | _ => { response := default_response, attempts := n + 1, sleptSeconds := get_wait_time msg }

/-! ### Record construction (App.get_new_tracks, lines 217-232) -/

/-- pyTitleAux mirrors the Python str.title() scan over ASCII text: an
alphabetic character is uppercased when the previous character was not
alphabetic and lowercased otherwise; other characters pass through and
reset the word state. -/
def pyTitleAux : Bool → List Char → List Char
  | _, [] => []
  | prevCased, c :: t =>
      if c.isAlpha then
        (if prevCased then c.toLower else c.toUpper) :: pyTitleAux true t
      else
        c :: pyTitleAux false t

/-- pyTitle is the Python str.title() method on ASCII strings. -/
def pyTitle (s : String) : String :=
  ⟨pyTitleAux false s.data⟩

/-- build_track is the loop body of App.get_new_tracks: every field of
the classifier response is title-cased, then the original title, the
channel name and the run timestamp are attached. -/
def build_track (channel now title : String) (resp : MusicDetails) : ClassifiedTrack :=
  { artist := pyTitle resp.artist
    track := pyTitle resp.track
    title := pyTitle resp.title
    original_title := title
    channel := channel
    date := now }

/-- get_new_tracks is App.get_new_tracks: one record per filtered title,
in order, built from whatever ask returned for that title. -/
def get_new_tracks (channel now : String) (titles : List String)
    (oracles : String → Nat → InvokeResult) : List ClassifiedTrack :=
  titles.map (fun t => build_track channel now t (ask (oracles t)).response)

/-! ### Reconciliation Engine (App.run, lines 401-434)

Per track the loop looks the track up in the catalog, re-fetches the
playlist membership snapshot and appends when the matched pair is
absent; any exception escaping the helpers is caught at the per-track
boundary. TrackOutcome fixes the behaviour of the remote services for
one iteration: the helpers swallow request errors themselves (a failed
lookup yields none, a failed snapshot fetch yields the empty snapshot, a
failed append returns false), while exn stands for any other exception
escaping into the per-track handler; every such exception site in the
code precedes the append call of that iteration. -/
inductive TrackOutcome where
  | exn : TrackOutcome
  | noMatch : TrackOutcome
  | found (uri name artistName : String)
      (snapshot : List (String × String)) (appendOk : Bool) : TrackOutcome
deriving Repr, DecidableEq

/-- StepEffect is what one loop iteration did: how many append calls it
issued and whether it appended the track to not_added_tracks. -/
structure StepEffect where
  appendCalls : Nat
  unresolved : Bool
deriving Repr, DecidableEq

/-- process_track is the body of the for loop of App.run under a fixed
service outcome: an escaping exception or a failed lookup marks the
track unresolved without an append call; a matched pair already in the
snapshot is skipped silently; otherwise one append call is issued and
the track is unresolved exactly when that call does not confirm
success. -/
def process_track : TrackOutcome → StepEffect
  | .exn => { appendCalls := 0, unresolved := true }
  | .noMatch => { appendCalls := 0, unresolved := true }
  | .found _ name artistName snapshot appendOk =>
      if (name, artistName) ∈ snapshot then { appendCalls := 0, unresolved := false }
      else { appendCalls := 1, unresolved := !appendOk }

/-- reconcile_loop runs the loop over classified tracks paired with
their service outcomes, returning the total number of append calls and
the accumulated not_added_tracks list in order. -/
def reconcile_loop : List (ClassifiedTrack × TrackOutcome) → Nat × List ClassifiedTrack
  | [] => (0, [])
  | (t, o) :: rest =>
      let e := process_track o
      let r := reconcile_loop rest
      (e.appendCalls + r.1, (if e.unresolved then [t] else []) ++ r.2)

/-- RunEvent is an observable action of App.run: an append request for a
track uri, the write of the local report with its rows, and the record
store update. -/
inductive RunEvent where
  | appended (uri : String) : RunEvent
  | reportSaved (rows : List ClassifiedTrack) : RunEvent
  | databaseUpdated : RunEvent
deriving Repr, DecidableEq

/-- track_events lists the append requests one iteration issues. -/
def track_events : TrackOutcome → List RunEvent
  | .found uri name artistName snapshot _ =>
      if (name, artistName) ∈ snapshot then [] else [.appended uri]
  | _ => []

/-- app_run is the event trace of App.run after the classification step:
the per-track append requests in order, then the local report write
(performed only when not_added_tracks is nonempty, as in
App.save_not_added_tracks), then the record store update of
App.update_database, which always runs. -/
def app_run (items : List (ClassifiedTrack × TrackOutcome)) : List RunEvent :=
  (items.map (fun p => track_events p.2)).flatten
    ++ (if (reconcile_loop items).2.isEmpty then [] else [.reportSaved (reconcile_loop items).2])
    ++ [.databaseUpdated]

/-- append_confirmed states, of one service outcome, that an
add-to-playlist mutation was issued and confirmed successful: the track
was matched, the pair was absent from the snapshot, and the append call
reported success. -/
def append_confirmed : TrackOutcome → Bool
  | .found _ name artistName snapshot appendOk =>
      if (name, artistName) ∈ snapshot then false else appendOk
  | _ => false

/-- already_present states, of one service outcome, that the matched
pair was found in the freshly fetched membership snapshot, the no-op
success case. -/
def already_present : TrackOutcome → Bool
  | .found _ name artistName snapshot _ =>
      if (name, artistName) ∈ snapshot then true else false
  | _ => false

/-! ### Helper lemmas -/

theorem leadsWith_append_self (xs ys : List Char) : leadsWith xs (xs ++ ys) = true := by
  induction xs with
  | nil => rfl
  | cons a as ih => simp [leadsWith, ih]

theorem leadsWith_head_ne (a b : Char) (as bs : List Char) (h : b ≠ a) :
    leadsWith (a :: as) (b :: bs) = false := by
  simp only [leadsWith, Bool.and_eq_false_iff]
  left
  simp [Ne.symm h]

theorem leadsWith_sep_ne_P (c : Char) (t : List Char) (h : c ≠ 'P') :
    leadsWith sepChars (c :: t) = false := by
  have e : sepChars = 'P' :: "lease try again in ".data := rfl
  rw [e]
  exact leadsWith_head_ne _ _ _ _ h

theorem afterLast_append_noP (cs : List Char) (r : List Char) (h : ∀ c ∈ cs, c ≠ 'P') :
    afterLast sepChars (cs ++ r) = afterLast sepChars r := by
  induction cs with
  | nil => rfl
  | cons c p ih =>
      have hc : c ≠ 'P' := h c (by simp)
      have ih' := ih (fun x hx => h x (by simp [hx]))
      rw [List.cons_append, afterLast, ih']
      cases hr : afterLast sepChars r with
      | some x => rfl
      | none => simp [leadsWith_sep_ne_P c _ hc]

theorem afterLast_eq_none_of_not_contains (s : List Char)
    (h : containsTok sepChars s = false) : afterLast sepChars s = none := by
  induction s with
  | nil => rfl
  | cons c t ih =>
      rw [containsTok, Bool.or_eq_false_iff] at h
      rw [afterLast, ih h.2, h.1]
      simp

theorem afterLast_sep_append (Y : List Char) (h : afterLast sepChars Y = none) :
    afterLast sepChars (sepChars ++ Y) = some Y := by
  have e : sepChars ++ Y = 'P' :: ("lease try again in ".data ++ Y) := rfl
  have h1 : afterLast sepChars ("lease try again in ".data ++ Y) = none := by
    rw [afterLast_append_noP _ _ (by decide)]
    exact h
  have h2 : leadsWith sepChars ('P' :: ("lease try again in ".data ++ Y)) = true := by
    have e2 : 'P' :: ("lease try again in ".data ++ Y) = sepChars ++ Y := rfl
    rw [e2]
    exact leadsWith_append_self _ _
  rw [e, afterLast, h1, h2]
  simp only [if_true]
  rfl

theorem afterLast_append_of_some (pre s r : List Char)
    (h : afterLast sepChars s = some r) : afterLast sepChars (pre ++ s) = some r := by
  induction pre with
  | nil => exact h
  | cons c p ih => rw [List.cons_append, afterLast, ih]

theorem digit_ne (c x : Char) (h : c.isDigit = true) (hx : x.isDigit = false) : c ≠ x := by
  intro e
  rw [e, hx] at h
  exact Bool.false_ne_true h

theorem takeUntil_digits (ds post : List Char) (h : ∀ c ∈ ds, c.isDigit = true) :
    takeUntilChar 's' (ds ++ 's' :: post) = ds := by
  induction ds with
  | nil => simp [takeUntilChar]
  | cons c t ih =>
      have hc : c ≠ 's' := digit_ne c 's' (h c (by simp)) (by decide)
      rw [List.cons_append, takeUntilChar, if_neg hc, ih (fun x hx => h x (by simp [hx]))]

theorem removeChar_digits (ds : List Char) (h : ∀ c ∈ ds, c.isDigit = true) :
    removeChar '.' ds = ds := by
  rw [removeChar, List.filter_eq_self]
  intro c hc
  simp [digit_ne c '.' (h c hc) (by decide)]

theorem replaceChar_digits (ds : List Char) (h : ∀ c ∈ ds, c.isDigit = true) :
    replaceChar 'm' '.' ds = ds := by
  induction ds with
  | nil => rfl
  | cons c t ih =>
      have hc : c ≠ 'm' := digit_ne c 'm' (h c (by simp)) (by decide)
      rw [replaceChar] at ih ⊢
      rw [List.map_cons, if_neg hc, ih (fun x hx => h x (by simp [hx]))]

theorem takeWhile_all (p : Char → Bool) (l : List Char) (h : ∀ c ∈ l, p c = true) :
    l.takeWhile p = l := by
  induction l with
  | nil => rfl
  | cons c t ih =>
      rw [List.takeWhile_cons, if_pos (h c (by simp)), ih (fun x hx => h x (by simp [hx]))]

theorem dropWhile_all (p : Char → Bool) (l : List Char) (h : ∀ c ∈ l, p c = true) :
    l.dropWhile p = [] := by
  induction l with
  | nil => rfl
  | cons c t ih =>
      rw [List.dropWhile_cons, if_pos (h c (by simp)), ih (fun x hx => h x (by simp [hx]))]

theorem parseFloat_digits (ds : List Char) (hne : ds ≠ []) (h : ∀ c ∈ ds, c.isDigit = true) :
    parseFloat ds = some (digitsVal ds : ℚ) := by
  obtain ⟨d, t, rfl⟩ := List.exists_cons_of_ne_nil hne
  have hd : d.isDigit = true := h d (by simp)
  rw [parseFloat, if_neg (digit_ne d '-' hd (by decide)), if_neg (digit_ne d '+' hd (by decide))]
  simp only [parseUnsigned, takeWhile_all Char.isDigit _ h, dropWhile_all Char.isDigit _ h]
  simp [List.isEmpty]

theorem pyInt_nat_mul (n : Nat) : pyInt ((n : ℚ) * 60) = 60 * (n : Int) := by
  have e : ((n : ℚ) * 60) = ((60 * n : ℕ) : ℚ) := by push_cast; ring
  rw [pyInt, e, Rat.num_natCast, Rat.den_natCast]
  simp [Int.tdiv]

theorem reconcile_loop_append (xs ys : List (ClassifiedTrack × TrackOutcome)) :
    reconcile_loop (xs ++ ys)
      = ((reconcile_loop xs).1 + (reconcile_loop ys).1,
         (reconcile_loop xs).2 ++ (reconcile_loop ys).2) := by
  induction xs with
  | nil => simp [reconcile_loop]
  | cons p xs ih =>
      obtain ⟨t, o⟩ := p
      simp [reconcile_loop, ih, Nat.add_assoc, List.append_assoc]

/-! ### Claim theorems -/

/-- C4: for every list of raw titles and every record store, the
duplicate filter output is a subsequence of the input (hence preserves
relative order) and contains no title equal to the original_title field
of any stored record, so a title already in the record store never
reaches the classifier. -/
theorem c4_duplicate_filter (R : List String) (K : List DbRecord) :
    (parse_filter R K).Sublist R ∧
      ∀ t ∈ parse_filter R K, ∀ d ∈ K, d.original_title ≠ some t := by
  refine ⟨List.filter_sublist R, ?_⟩
  intro t ht d hd heq
  rw [parse_filter, List.mem_filter] at ht
  obtain ⟨-, hb⟩ := ht
  rw [Bool.not_eq_true'] at hb
  rw [identify] at hb
  have hall := List.any_eq_false.mp hb d hd
  rw [heq] at hall
  simp at hall

/-- C4 witness: the filter applied to a concrete scrape with one known
title. -/
theorem c4_duplicate_filter_witness :
    parse_filter ["a", "b", "a"] [⟨some "b"⟩] = ["a", "a"] ∧
      ((parse_filter ["a", "b", "a"] [⟨some "b"⟩]).Sublist ["a", "b", "a"] ∧
        ∀ t ∈ parse_filter ["a", "b", "a"] [⟨some "b"⟩],
          ∀ d ∈ ([⟨some "b"⟩] : List DbRecord), d.original_title ≠ some t) :=
  ⟨rfl, c4_duplicate_filter ["a", "b", "a"] [⟨some "b"⟩]⟩

/-- C10: an empty remote playlist listing makes playlist resolution fall
off its loop and return None, creating nothing and establishing no
playlist id. -/
theorem c10_empty_listing (createdId : String) :
    get_playlist_id [] createdId = PlaylistResolution.noneEstablished := rfl

/-- C8 counterexample: a listing whose second playlist is named exactly
Youtube Scrapping while the first is not; the code creates a fresh
playlist instead of reusing the matching id, refuting the claim that a
matching listed playlist is always reused. -/
theorem c8_counterexample :
    get_playlist_id [⟨"Chill vibes", "id1"⟩, ⟨"Youtube Scrapping", "id2"⟩] "newid"
        = PlaylistResolution.created "Youtube Scrapping"
            "Musicas que foram retiradas do Youtube" true "newid" ∧
      get_playlist_id [⟨"Chill vibes", "id1"⟩, ⟨"Youtube Scrapping", "id2"⟩] "newid"
        ≠ PlaylistResolution.reused "id2" := by
  decide

/-- C8 amended: playlist resolution inspects only the first listed
playlist: when its name contains the target string the existing id is
reused, and otherwise a new playlist with the fixed name, fixed
description and public set to true is created and its id used. -/
theorem c8_first_item_resolution (p : Playlist) (rest : List Playlist) (createdId : String) :
    (strIn "Youtube Scrapping" p.name = true →
        get_playlist_id (p :: rest) createdId = PlaylistResolution.reused p.id) ∧
      (strIn "Youtube Scrapping" p.name = false →
        get_playlist_id (p :: rest) createdId
          = PlaylistResolution.created "Youtube Scrapping"
              "Musicas que foram retiradas do Youtube" true createdId) := by
  constructor <;> intro h <;> simp [get_playlist_id, h]

/-- C8 amended witness: both branches of the first-item decision at
concrete listings. -/
theorem c8_first_item_resolution_witness :
    get_playlist_id [⟨"Youtube Scrapping", "id7"⟩] "newid" = PlaylistResolution.reused "id7" ∧
      get_playlist_id [⟨"Road trip", "id8"⟩] "newid"
        = PlaylistResolution.created "Youtube Scrapping"
            "Musicas que foram retiradas do Youtube" true "newid" :=
  ⟨(c8_first_item_resolution ⟨"Youtube Scrapping", "id7"⟩ [] "newid").1 (by decide),
   (c8_first_item_resolution ⟨"Road trip", "id8"⟩ [] "newid").2 (by decide)⟩

/-- C1: a classified track whose matched pair already sits in the
freshly fetched snapshot is a no-op success: the loop body issues no
append call and records no unresolved entry, so reconciling such a track
again yields zero additional append calls and zero unresolved
entries. -/
theorem c1_already_present_noop (t : ClassifiedTrack) (uri name artistName : String)
    (s1 s2 : List (String × String)) (ok : Bool) :
    process_track (.found uri name artistName (s1 ++ (name, artistName) :: s2) ok)
        = { appendCalls := 0, unresolved := false } ∧
      reconcile_loop [(t, .found uri name artistName (s1 ++ (name, artistName) :: s2) ok)]
        = (0, []) := by
  have hmem : (name, artistName) ∈ s1 ++ (name, artistName) :: s2 := by simp
  constructor
  · simp [process_track, hmem]
  · simp [reconcile_loop, process_track, hmem]

/-- C2: an exception while processing one track is absorbed at the
per-track boundary: that track alone joins the unresolved list, the
surrounding tracks are processed exactly as they would be on their own,
and the run trace still performs the report write and the record store
update afterwards. -/
theorem c2_per_track_exception (pre : List (ClassifiedTrack × TrackOutcome))
    (t : ClassifiedTrack) (post : List (ClassifiedTrack × TrackOutcome)) :
    reconcile_loop (pre ++ (t, TrackOutcome.exn) :: post)
        = ((reconcile_loop pre).1 + (reconcile_loop post).1,
           (reconcile_loop pre).2 ++ t :: (reconcile_loop post).2) ∧
      t ∈ (reconcile_loop (pre ++ (t, TrackOutcome.exn) :: post)).2 ∧
      RunEvent.reportSaved (reconcile_loop (pre ++ (t, TrackOutcome.exn) :: post)).2
        ∈ app_run (pre ++ (t, TrackOutcome.exn) :: post) ∧
      RunEvent.databaseUpdated ∈ app_run (pre ++ (t, TrackOutcome.exn) :: post) := by
  have hstep : reconcile_loop ((t, TrackOutcome.exn) :: post)
      = ((reconcile_loop post).1, t :: (reconcile_loop post).2) := by
    simp [reconcile_loop, process_track]
  have hdec : reconcile_loop (pre ++ (t, TrackOutcome.exn) :: post)
      = ((reconcile_loop pre).1 + (reconcile_loop post).1,
         (reconcile_loop pre).2 ++ t :: (reconcile_loop post).2) := by
    rw [reconcile_loop_append, hstep]
  have hmem : t ∈ (reconcile_loop (pre ++ (t, TrackOutcome.exn) :: post)).2 := by
    rw [hdec]; simp
  have hnonempty : ((reconcile_loop (pre ++ (t, TrackOutcome.exn) :: post)).2).isEmpty = false := by
    rw [hdec]; simp
  refine ⟨hdec, hmem, ?_, ?_⟩
  · rw [app_run, hnonempty]
    simp
  · rw [app_run]
    simp

/-- C3 counterexample: one track matched to a pair already in the
snapshot: no add mutation is confirmed successful for it, yet the
unresolved list stays empty — so the unresolved records are not exactly
the tracks lacking a confirmed successful add. -/
theorem c3_counterexample :
    (reconcile_loop [(⟨"A", "B", "C", "D", "E", "F"⟩,
        TrackOutcome.found "u" "N" "Ar" [("N", "Ar")] true)]).2
      ≠ (([(⟨"A", "B", "C", "D", "E", "F"⟩,
            TrackOutcome.found "u" "N" "Ar" [("N", "Ar")] true)]).filter
            (fun p => !append_confirmed p.2)).map Prod.fst := by
  decide

/-- C3 amended: the unresolved records are exactly those classified
tracks for which no add-to-playlist mutation was confirmed successful
and whose matched pair was not found already present in the membership
snapshot. -/
theorem c3_unresolved_characterization (items : List (ClassifiedTrack × TrackOutcome)) :
    (reconcile_loop items).2
      = (items.filter (fun p => !append_confirmed p.2 && !already_present p.2)).map Prod.fst := by
  induction items with
  | nil => rfl
  | cons p rest ih =>
      obtain ⟨t, o⟩ := p
      have hpoint : (process_track o).unresolved = (!append_confirmed o && !already_present o) := by
        cases o with
        | exn => rfl
        | noMatch => rfl
        | found uri name artistName snapshot appendOk =>
            by_cases hm : (name, artistName) ∈ snapshot <;>
              simp [process_track, append_confirmed, already_present, hm]
      cases hu : (process_track o).unresolved with
      | false =>
          have hc : (!append_confirmed o && !already_present o) = false := hpoint.symm.trans hu
          simp [reconcile_loop, List.filter_cons, hu, hc, ih]
      | true =>
          have hc : (!append_confirmed o && !already_present o) = true := hpoint.symm.trans hu
          simp [reconcile_loop, List.filter_cons, hu, hc, ih]

/-- C5: the classifier issues at most 3 invoke calls inside the
exponential-backoff retry, and at most one further call afterwards, for
a total of at most 4 service attempts per classification call. -/
theorem c5_attempt_bounds (oracle : Nat → InvokeResult) :
    (retryAttempts oracle).2 ≤ stop_attempts ∧
      (ask oracle).attempts ≤ (retryAttempts oracle).2 + 1 ∧
      (ask oracle).attempts ≤ 4 := by
  cases h0 : oracle 0 <;> cases h1 : oracle 1 <;> cases h2 : oracle 2 <;> cases h3 : oracle 3 <;>
    simp [ask, retryAttempts, stop_attempts, h0, h1, h2, h3]

/-- C6 counterexample: the first invoke call yields a malformed
response, yet a second service attempt is made and its successful result
is returned: a structural parse failure does not short-circuit without
retry. -/
theorem c6_counterexample :
    (fun n => if n = 0 then InvokeResult.parseFailure "bad json"
        else InvokeResult.ok ⟨"A", "B", "C"⟩) 0 = InvokeResult.parseFailure "bad json" ∧
      (ask (fun n => if n = 0 then InvokeResult.parseFailure "bad json"
          else InvokeResult.ok ⟨"A", "B", "C"⟩)).attempts = 2 ∧
      (ask (fun n => if n = 0 then InvokeResult.parseFailure "bad json"
          else InvokeResult.ok ⟨"A", "B", "C"⟩)).response ≠ default_response := by
  decide

/-- C6 amended: a malformed response is retried inside the backoff
policy like any other exception; only when the retried attempt finally
re-raises the parse failure does the classifier return the
default-unknown record at once, with no wait-period sleep and no further
invoke call. -/
theorem c6_parse_failure_short_circuit (oracle : Nat → InvokeResult) (msg : String) (n : Nat)
    (h : retryAttempts oracle = (InvokeResult.parseFailure msg, n)) :
    ask oracle = { response := default_response, attempts := n, sleptSeconds := 0 } := by
  unfold ask
  rw [h]

/-- C6 amended witness: an oracle whose every call is a parse failure
exhausts the 3 backoff attempts and stops. -/
theorem c6_parse_failure_short_circuit_witness :
    retryAttempts (fun _ => InvokeResult.parseFailure "bad")
        = (InvokeResult.parseFailure "bad", 3) ∧
      ask (fun _ => InvokeResult.parseFailure "bad")
        = { response := default_response, attempts := 3, sleptSeconds := 0 } :=
  ⟨rfl, c6_parse_failure_short_circuit (fun _ => InvokeResult.parseFailure "bad") "bad" 3 rfl⟩

/-- C7: a classification of a title without a song reference (all fields
the literal unknown, per the prompt contract) and a classification that
fell back to the default record both yield record fields that are
exactly Unknown, and every field of any classifier response is
title-cased before being attached to the record. -/
theorem c7_unknown_and_titlecase (channel now title : String) (resp : MusicDetails) :
    (build_track channel now title ⟨"unknown", "unknown", "unknown"⟩).artist = "Unknown"
      ∧ (build_track channel now title ⟨"unknown", "unknown", "unknown"⟩).track = "Unknown"
      ∧ (build_track channel now title ⟨"unknown", "unknown", "unknown"⟩).title = "Unknown"
      ∧ (build_track channel now title default_response).artist = "Unknown"
      ∧ (build_track channel now title default_response).track = "Unknown"
      ∧ (build_track channel now title default_response).title = "Unknown"
      ∧ (build_track channel now title resp).artist = pyTitle resp.artist
      ∧ (build_track channel now title resp).track = pyTitle resp.track
      ∧ (build_track channel now title resp).title = pyTitle resp.title
      ∧ (build_track channel now title resp).original_title = title :=
  ⟨rfl, rfl, rfl, rfl, rfl, rfl, rfl, rfl, rfl, rfl⟩

/-- C9: a rate-limit message whose final wait hint names a whole number
of seconds (a nonempty digit string ds before the closing letter s, with
no later copy of the hint marker) yields a suspension of N*60 seconds,
the extracted number being treated as minutes; and a message whose
processed remainder admits no float conversion yields the fixed fallback
of 120 seconds. -/
theorem c9_wait_time_scaling (pre ds post : List Char) (msg2 : String)
    (hne : ds ≠ []) (hds : ∀ c ∈ ds, c.isDigit = true)
    (hpost : containsTok sepChars post = false)
    (hfail : parseFloat (replaceChar 'm' '.' (removeChar '.'
        (takeUntilChar 's' (splitLastField sepChars msg2.data)))) = none) :
    get_wait_time ⟨pre ++ sepChars ++ (ds ++ 's' :: post)⟩ = 60 * (digitsVal ds : Int) ∧
      get_wait_time msg2 = 120 := by
  constructor
  · have hY : afterLast sepChars (ds ++ 's' :: post) = none := by
      have e : ds ++ 's' :: post = (ds ++ ['s']) ++ post := by simp
      rw [e, afterLast_append_noP]
      · exact afterLast_eq_none_of_not_contains post hpost
      · intro c hc
        rcases List.mem_append.mp hc with h | h
        · exact digit_ne c 'P' (hds c h) (by decide)
        · simp only [List.mem_singleton] at h
          rw [h]
          decide
    have hfull : afterLast sepChars (pre ++ sepChars ++ (ds ++ 's' :: post))
        = some (ds ++ 's' :: post) := by
      rw [List.append_assoc]
      exact afterLast_append_of_some pre _ _ (afterLast_sep_append _ hY)
    have hdata : (String.mk (pre ++ sepChars ++ (ds ++ 's' :: post))).data
        = pre ++ sepChars ++ (ds ++ 's' :: post) := rfl
    simp only [get_wait_time, hdata, splitLastField, hfull, takeUntil_digits _ _ hds,
      removeChar_digits _ hds, replaceChar_digits _ hds, parseFloat_digits ds hne hds]
    exact pyInt_nat_mul (digitsVal ds)
  · simp only [get_wait_time, hfail]

/-- C9 witness: the hint naming 7 seconds suspends for 420 seconds and a
hintless message falls back to 120. -/
theorem c9_wait_time_scaling_witness :
    get_wait_time "Please try again in 7s" = 420 ∧
      get_wait_time "no wait hint here" = 120 := by
  have h := c9_wait_time_scaling [] ['7'] [] "no wait hint here"
    (by decide) (by decide) (by decide) (by decide)
  exact ⟨h.1, h.2⟩

end MusicScraping
